import Mathlib

/-!
Verification of the wormhole repository's control plane, rate limiter,
PAKE transcript, framing codec and transfer engine.

The Go sources are shallowly embedded: pure decision logic becomes Lean
functions, stateful database/limiter code becomes explicit state passing.
Wall-clock times are modelled as integers (the database stores Unix
seconds; limiter durations are likewise modelled in whole seconds).
Byte strings are `List Nat`.
-/

namespace Wormhole

/-! ## Nameplate store (server/db.go, `ControlDB`) -/

/-- One row of the `nameplates` table, mirroring Go's `NameplateRow`.
`claimedMask` uses bit 0 for the host side and bit 1 for the connect side;
`consumed` is the 0/1 integer the schema stores. -/
structure NameplateRow where
  nameplate : String
  createdAt : Int
  ttlSeconds : Int
  claimedMask : Nat
  consumed : Nat
  failCount : Nat
  lastIP : Option String
  deriving DecidableEq, Repr

/-- Go's `NameplateRow.Expired`: the row is expired at `at_` iff `at_` is
strictly after `createdAt + ttlSeconds`. -/
def NameplateRow.Expired (r : NameplateRow) (at_ : Int) : Bool :=
  r.createdAt + r.ttlSeconds < at_

/-- Go's `ControlDB.IncrFail`: `fail_count = fail_count + 1` on the row. -/
def NameplateRow.incrFail (r : NameplateRow) : NameplateRow :=
  { r with failCount := r.failCount + 1 }

/-- The claim status constants of server/db.go (`waiting`, `paired`,
`failed`). -/
inductive PlateStatus where
  | waiting
  | paired
  | failed
  deriving DecidableEq, Repr

/-- ASCII lowercasing of one character: 'A'..'Z' move down by the
'a' − 'A' = 32 offset, everything else is unchanged. -/
def lowerChar (c : Char) : Char :=
  if 'A' ≤ c ∧ c ≤ 'Z' then Char.ofNat (c.toNat + 32) else c

/-- Go's `toLower` in server/db.go: ASCII-only lowercasing. -/
def asciiToLower (s : String) : String :=
  ⟨s.data.map lowerChar⟩

/-- The side-token dispatch of `ControlDB.Claim`: after lowercasing,
"host"/"a" select bit 1 (bit 0 set), "connect"/"b" select bit 2 (bit 1
set); anything else is unrecognized. -/
def sideBit (side : String) : Option Nat :=
  match asciiToLower side with
  | "host" => some 1
  | "a" => some 1
  | "connect" => some 2
  | "b" => some 2
  | _ => none

/-- State of the `nameplates` table restricted to one nameplate: `none`
when no row with that key exists.  Every `ControlDB` statement touching a
fixed nameplate is a function of this state alone. -/
abbrev RowState := Option NameplateRow

/-- Go's `ControlDB.Claim` for a fixed nameplate.  Returns the status, the
row value the handler receives (`nil` for missing/expired rows), and the
resulting table state.  Mirrors the source order: load, expiry check with
delete, consumed check, side dispatch with `IncrFail` on bad side,
duplicate-bit check with `IncrFail`, then the mask/last_ip update. -/
def Claim (state : RowState) (side : String) (now : Int) (ip : String) :
    PlateStatus × RowState × RowState :=
  match state with
  | none => (.failed, none, none)
  | some r =>
    if r.Expired now then
      (.failed, none, none)
    else if r.consumed ≠ 0 then
      (.failed, some r, some r)
    else
      match sideBit side with
      | none => (.failed, some r, some r.incrFail)
      | some bit =>
        let newMask := r.claimedMask ||| bit
        if newMask = r.claimedMask then
          (.failed, some r, some r.incrFail)
        else
          let r' := { r with claimedMask := newMask, lastIP := some ip }
          (if newMask = 3 then .paired else .waiting, some r', some r')

/-- Go's `ControlDB.Consume`: `UPDATE nameplates SET consumed=1`. -/
def Consume (state : RowState) : RowState :=
  state.map fun r => { r with consumed := 1 }

/-- Go's `ControlDB.FailAndConsume`:
`fail_count = fail_count + CASE WHEN consumed=0 THEN 1 ELSE 0 END,
 consumed = 1`. -/
def FailAndConsume (state : RowState) : RowState :=
  state.map fun r =>
    { r with
      failCount := r.failCount + (if r.consumed = 0 then 1 else 0),
      consumed := 1 }

/-! ## Claim HTTP handler (server/http.go, `HTTPHandlers.HandleClaim`) -/

/-- The part of `HandleClaim` the response depends on: it runs `Claim` and
surfaces `expires_at` as the row's `created_at + ttl_seconds` when the
returned row is non-nil, and as `now` when the row is nil.  Result is
(status, expires_at, new table state). -/
def HandleClaim (state : RowState) (side : String) (now : Int) (ip : String) :
    PlateStatus × Int × RowState :=
  let res := Claim state side now ip
  let exp : Int :=
    match res.2.1 with
    | some r => r.createdAt + r.ttlSeconds
    | none => now
  (res.1, exp, res.2.2)

end Wormhole

namespace Wormhole

/-! ## Claims C1 and C2 -/

/-- Helper: on a live row, a claim whose side bit is already set fails and
increments the fail counter. -/
lemma claim_dup_bit_eq
    (r : NameplateRow) (side : String) (now : Int) (ip : String) (bit : Nat)
    (hexp : r.Expired now = false) (hcon : r.consumed = 0)
    (hside : sideBit side = some bit)
    (hdup : r.claimedMask ||| bit = r.claimedMask) :
    Claim (some r) side now ip =
      (.failed, some r, some { r with failCount := r.failCount + 1 }) := by
  simp [Claim, hexp, hcon, hside, hdup, NameplateRow.incrFail]

/-- Helper: on a live row, a claim whose side bit is newly set updates the
mask and last_ip and reports `paired` exactly when the new mask is 3. -/
lemma claim_new_bit_eq
    (r : NameplateRow) (side : String) (now : Int) (ip : String) (bit : Nat)
    (hexp : r.Expired now = false) (hcon : r.consumed = 0)
    (hside : sideBit side = some bit)
    (hnew : r.claimedMask ||| bit ≠ r.claimedMask) :
    Claim (some r) side now ip =
      ((if r.claimedMask ||| bit = 3 then .paired else .waiting),
       some { r with claimedMask := r.claimedMask ||| bit, lastIP := some ip },
       some { r with claimedMask := r.claimedMask ||| bit, lastIP := some ip }) := by
  simp [Claim, hexp, hcon, hside, hnew]

/-- C1: on a stored, unexpired, unconsumed row with a recognized side
token, `Claim` increments `fail_count` and returns `failed` with the mask
unchanged when the side's bit is already set; when the bit is newly set it
sets the bit, updates `last_ip`, and returns `waiting` when the resulting
mask is not 3 and `paired` when it is 3. -/
theorem claim_live_row_behaviour
    (r : NameplateRow) (side : String) (now : Int) (ip : String) (bit : Nat)
    (hexp : r.Expired now = false) (hcon : r.consumed = 0)
    (hside : sideBit side = some bit) :
    (r.claimedMask ||| bit = r.claimedMask →
      Claim (some r) side now ip =
        (.failed, some r, some { r with failCount := r.failCount + 1 })) ∧
    (r.claimedMask ||| bit ≠ r.claimedMask →
      Claim (some r) side now ip =
        ((if r.claimedMask ||| bit = 3 then .paired else .waiting),
         some { r with claimedMask := r.claimedMask ||| bit, lastIP := some ip },
         some { r with claimedMask := r.claimedMask ||| bit, lastIP := some ip })) :=
  ⟨claim_dup_bit_eq r side now ip bit hexp hcon hside,
   claim_new_bit_eq r side now ip bit hexp hcon hside⟩

/-- Witness for C1: a fresh row (mask 0) claimed as "host" moves to
`waiting` with bit 0 set, and a second "host" claim on the result fails
with `fail_count` incremented and the mask unchanged. -/
theorem claim_live_row_behaviour_witness :
    Claim (some { nameplate := "250", createdAt := 0, ttlSeconds := 600,
                  claimedMask := 0, consumed := 0, failCount := 0,
                  lastIP := none }) "host" 10 "1.2.3.4" =
      (.waiting,
       some { nameplate := "250", createdAt := 0, ttlSeconds := 600,
              claimedMask := 1, consumed := 0, failCount := 0,
              lastIP := some "1.2.3.4" },
       some { nameplate := "250", createdAt := 0, ttlSeconds := 600,
              claimedMask := 1, consumed := 0, failCount := 0,
              lastIP := some "1.2.3.4" }) ∧
    Claim (some { nameplate := "250", createdAt := 0, ttlSeconds := 600,
                  claimedMask := 1, consumed := 0, failCount := 0,
                  lastIP := some "1.2.3.4" }) "host" 20 "1.2.3.4" =
      (.failed,
       some { nameplate := "250", createdAt := 0, ttlSeconds := 600,
              claimedMask := 1, consumed := 0, failCount := 0,
              lastIP := some "1.2.3.4" },
       some { nameplate := "250", createdAt := 0, ttlSeconds := 600,
              claimedMask := 1, consumed := 0, failCount := 1,
              lastIP := some "1.2.3.4" }) := by
  constructor
  · have h := (claim_live_row_behaviour
      { nameplate := "250", createdAt := 0, ttlSeconds := 600,
        claimedMask := 0, consumed := 0, failCount := 0, lastIP := none }
      "host" 10 "1.2.3.4" 1 (by decide) rfl (by decide)).2 (by decide)
    simpa using h
  · have h := (claim_live_row_behaviour
      { nameplate := "250", createdAt := 0, ttlSeconds := 600,
        claimedMask := 1, consumed := 0, failCount := 0,
        lastIP := some "1.2.3.4" }
      "host" 20 "1.2.3.4" 1 (by decide) rfl (by decide)).1 (by decide)
    simpa using h

/-- C2: `Consume` and `FailAndConsume` are idempotent — any positive
number of applications equals one application — and across any number of
`FailAndConsume` calls `fail_count` is incremented exactly once when the
row was not yet consumed and never otherwise. -/
theorem consume_fail_and_consume_idempotent :
    (∀ (s : RowState) (n : Nat), Consume^[n + 1] s = Consume s) ∧
    (∀ (s : RowState) (n : Nat), FailAndConsume^[n + 1] s = FailAndConsume s) ∧
    (∀ (r : NameplateRow) (n : Nat),
      FailAndConsume^[n + 1] (some r) =
        some { r with
               failCount := r.failCount + (if r.consumed = 0 then 1 else 0),
               consumed := 1 }) := by
  have hc : ∀ s : RowState, Consume (Consume s) = Consume s := by
    intro s
    cases s with
    | none => rfl
    | some r => simp [Consume]
  have hf : ∀ s : RowState, FailAndConsume (FailAndConsume s) = FailAndConsume s := by
    intro s
    cases s with
    | none => rfl
    | some r => simp [FailAndConsume]
  have hcn : ∀ (n : Nat) (s : RowState), Consume^[n + 1] s = Consume s := by
    intro n
    induction n with
    | zero => intro s; simp
    | succ m ih =>
      intro s
      rw [Function.iterate_succ_apply, ih (Consume s), hc s]
  have hfn : ∀ (n : Nat) (s : RowState), FailAndConsume^[n + 1] s = FailAndConsume s := by
    intro n
    induction n with
    | zero => intro s; simp
    | succ m ih =>
      intro s
      rw [Function.iterate_succ_apply, ih (FailAndConsume s), hf s]
  refine ⟨fun s n => hcn n s, fun s n => hfn n s, ?_⟩
  intro r n
  rw [hfn]
  simp [FailAndConsume]

/-- Witness for C2 (the third conjunct is over a concrete row): three
`FailAndConsume` applications on a fresh row equal one, with `fail_count`
incremented once. -/
theorem consume_fail_and_consume_idempotent_witness :
    FailAndConsume^[3]
        (some { nameplate := "7", createdAt := 0, ttlSeconds := 60,
                claimedMask := 3, consumed := 0, failCount := 0,
                lastIP := none }) =
      some { nameplate := "7", createdAt := 0, ttlSeconds := 60,
             claimedMask := 3, consumed := 1, failCount := 1,
             lastIP := none } := by
  have h := consume_fail_and_consume_idempotent.2.2
    { nameplate := "7", createdAt := 0, ttlSeconds := 60,
      claimedMask := 3, consumed := 0, failCount := 0, lastIP := none } 2
  simpa using h

/-! ## Claim C3 -/

/-- A consumed row used to refute C3. -/
def c3Row : NameplateRow :=
  { nameplate := "250", createdAt := 0, ttlSeconds := 100,
    claimedMask := 3, consumed := 1, failCount := 0, lastIP := none }

/-- C3 counterexample: a claim on a consumed (unexpired) row at time 50
fails, yet the response's `expires_at` is the row's true expiry 100, not
the current time 50 — so this failure cause is distinguishable from a
missing row. -/
theorem handleClaim_failed_expiry_leaks :
    (HandleClaim (some c3Row) "host" 50 "1.2.3.4").1 = .failed ∧
    (HandleClaim (some c3Row) "host" 50 "1.2.3.4").2.1 = 100 ∧
    (100 : Int) ≠ 50 := by
  refine ⟨?_, ?_, by decide⟩ <;> rfl

/-- C3 amended: in a Failed `/v1/claim` response, `expires_at` equals
`now` exactly in the missing-row and expired-row cases (where `Claim`
returns a nil row); in the consumed, unrecognized-side and
already-claimed failure cases the row is returned and `expires_at` is its
real expiry `created_at + ttl_seconds`. -/
theorem handleClaim_failed_expiry_cases
    (side : String) (now : Int) (ip : String) :
    (HandleClaim none side now ip).2.1 = now ∧
    (∀ r : NameplateRow, r.Expired now = true →
      (HandleClaim (some r) side now ip).2.1 = now) ∧
    (∀ r : NameplateRow, r.Expired now = false →
      (HandleClaim (some r) side now ip).1 = .failed →
      (HandleClaim (some r) side now ip).2.1 = r.createdAt + r.ttlSeconds) := by
  refine ⟨rfl, ?_, ?_⟩
  · intro r hexp
    simp [HandleClaim, Claim, hexp]
  · intro r hexp _
    by_cases hcon : r.consumed = 0
    · cases hside : sideBit side with
      | none => simp [HandleClaim, Claim, hexp, hcon, hside]
      | some bit =>
        by_cases hdup : r.claimedMask ||| bit = r.claimedMask
        · simp [HandleClaim, Claim, hexp, hcon, hside, hdup]
        · simp [HandleClaim, Claim, hexp, hcon, hside, hdup]
    · simp [HandleClaim, Claim, hexp, hcon]

/-- Witness for the amended C3: at the consumed row, the failed response
carries the row's real expiry; at a missing row it carries `now`. -/
theorem handleClaim_failed_expiry_cases_witness :
    (HandleClaim none "host" 50 "1.2.3.4").2.1 = 50 ∧
    (HandleClaim (some c3Row) "host" 50 "1.2.3.4").2.1 =
      c3Row.createdAt + c3Row.ttlSeconds := by
  refine ⟨(handleClaim_failed_expiry_cases "host" 50 "1.2.3.4").1, ?_⟩
  exact (handleClaim_failed_expiry_cases "host" 50 "1.2.3.4").2.2 c3Row
    (by decide) rfl

/-! ## Claim C4 -/

/-- A live unclaimed row used for the C4 counterexample. -/
def c4Row : NameplateRow :=
  { nameplate := "250", createdAt := 0, ttlSeconds := 100,
    claimedMask := 0, consumed := 0, failCount := 0, lastIP := none }

/-- C4 counterexample: the literal side token "connector" is not
recognized by `Claim` — on a live row with the connector bit unset it
returns `failed` (with `fail_count` incremented and the mask unchanged),
not `waiting` or `paired`. -/
theorem claim_connector_token_rejected :
    (Claim (some c4Row) "connector" 50 "1.2.3.4").1 = .failed ∧
    Claim (some c4Row) "connector" 50 "1.2.3.4" =
      (.failed, some c4Row, some { c4Row with failCount := 1 }) := by
  constructor <;> decide

/-- C4 amended: the recognized side tokens are `host` and `connect`, with
aliases `a` for host and `b` for connect, case-insensitively.  For every
live row whose connect bit (bit 1, value 2) is unset, a claim whose side
lowercases to "connect" or "b" sets that bit, updates `last_ip`, and
returns `waiting` or `paired` rather than `failed`. -/
theorem claim_connect_token_accepted
    (r : NameplateRow) (side : String) (now : Int) (ip : String)
    (hside : asciiToLower side = "connect" ∨ asciiToLower side = "b")
    (hexp : r.Expired now = false) (hcon : r.consumed = 0)
    (hbit : r.claimedMask ||| 2 ≠ r.claimedMask) :
    ((Claim (some r) side now ip).1 = .waiting ∨
      (Claim (some r) side now ip).1 = .paired) ∧
    (Claim (some r) side now ip).2.2 =
      some { r with claimedMask := r.claimedMask ||| 2, lastIP := some ip } := by
  have hsb : sideBit side = some 2 := by
    rcases hside with h | h <;> simp [sideBit, h]
  have h := claim_new_bit_eq r side now ip 2 hexp hcon hsb hbit
  rw [h]
  refine ⟨?_, rfl⟩
  by_cases h3 : r.claimedMask ||| 2 = 3
  · right; simp [h3]
  · left; simp [h3]

/-- Witness for the amended C4: claiming the live row with side "Connect"
(case-insensitive) yields `waiting` and sets bit 1 (mask 2). -/
theorem claim_connect_token_accepted_witness :
    ((Claim (some c4Row) "Connect" 50 "1.2.3.4").1 = .waiting ∨
      (Claim (some c4Row) "Connect" 50 "1.2.3.4").1 = .paired) ∧
    (Claim (some c4Row) "Connect" 50 "1.2.3.4").2.2 =
      some { c4Row with claimedMask := 2, lastIP := some "1.2.3.4" } := by
  have h := claim_connect_token_accepted c4Row "Connect" 50 "1.2.3.4"
    (Or.inl (by decide)) (by decide) rfl (by decide)
  simpa [c4Row] using h

/-! ## IP rate limiter (pkg/server/limiter.go, `IPLimiter`)

The limiter's two maps are keyed by address; `Allow` and `RecordFail`
read and write only the caller's two timestamp lists, so the state is
modelled as those two lists.  Timestamps and window widths are integers
(whole seconds); the one-second floor on the suggested wait is the
constant 1. -/

/-- The per-address limiter state: the request window's and the failure
window's recorded timestamps, in insertion (hence chronological) order. -/
structure LimState where
  reqs : List Int
  fails : List Int
  deriving DecidableEq, Repr

/-- One list's share of `IPLimiter.pruneLocked`: keep exactly the
timestamps `t` with `now − t ≤ window` (in-place compaction preserves
order, i.e. it is a filter). -/
def pruneList (now window : Int) (l : List Int) : List Int :=
  l.filter fun t => now - t ≤ window

/-- Go's `IPLimiter.pruneLocked` restricted to one address. -/
def pruneLocked (reqWindow failWindow now : Int) (st : LimState) : LimState :=
  { reqs := pruneList now reqWindow st.reqs
    fails := pruneList now failWindow st.fails }

/-- Go's `IPLimiter.Allow` restricted to one address: prune, append `now`
to the request list (stored before any check), then reject when the
request list exceeds `maxReqs` or the failure list exceeds `maxFails`,
with the suggested wait floored to one second.  Returns
(allowed, wait, new state). -/
def Allow (reqWindow : Int) (maxReqs : Nat) (failWindow : Int) (maxFails : Nat)
    (st : LimState) (now : Int) : Bool × Int × LimState :=
  let st1 := pruneLocked reqWindow failWindow now st
  let arr := st1.reqs ++ [now]
  let st2 := { st1 with reqs := arr }
  if maxReqs < arr.length then
    let wait := reqWindow - (now - arr.headD 0)
    (false, if wait < 1 then 1 else wait, st2)
  else if maxFails < st2.fails.length then
    let wait := failWindow - (now - st2.fails.headD 0)
    (false, if wait < 1 then 1 else wait, st2)
  else
    (true, 0, st2)

/-- Go's `IPLimiter.RecordFail` restricted to one address: prune, then
append `now` to the failure list only. -/
def RecordFail (reqWindow failWindow : Int) (st : LimState) (now : Int) :
    LimState :=
  let st1 := pruneLocked reqWindow failWindow now st
  { st1 with fails := st1.fails ++ [now] }

/-! ## Claim C9 -/

/-- C9 counterexample: with window 10 and a maximum of 3 requests, an
address whose recorded requests are at times 0, 1, 2 calls `Allow` at
time 10, so `now − oldest = window` exactly — and the call is rejected
(the boundary entry is still inside the window), with suggested wait
floored to 1. -/
theorem allow_boundary_rejected :
    (10 : Int) - 0 = 10 ∧
    (Allow 10 3 10 5 ⟨[0, 1, 2], []⟩ 10).1 = false ∧
    (Allow 10 3 10 5 ⟨[0, 1, 2], []⟩ 10).2.1 = 1 := by
  refine ⟨by decide, ?_, ?_⟩ <;> decide

/-- C9 amended: a request window exactly at the boundary rejects the
request.  Pruning keeps every timestamp with `now − t ≤ window`, so when
an address has `maxReqs` earlier requests all at most `window` old
(including the oldest at exactly `now − oldest = window`), the `Allow`
call at `now` is rejected, and when the oldest is exactly at the boundary
the suggested wait is the one-second floor.  Admission would require the
oldest entries to be strictly older than the window. -/
theorem allow_boundary_rejects
    (reqWindow : Int) (maxReqs : Nat) (failWindow : Int) (maxFails : Nat)
    (reqs fails : List Int) (now : Int)
    (hlen : reqs.length = maxReqs)
    (hin : ∀ t ∈ reqs, now - t ≤ reqWindow) :
    (Allow reqWindow maxReqs failWindow maxFails ⟨reqs, fails⟩ now).1 = false ∧
    (∀ t0 tl, reqs = t0 :: tl → now - t0 = reqWindow →
      (Allow reqWindow maxReqs failWindow maxFails ⟨reqs, fails⟩ now).2.1 = 1) := by
  have hprune : pruneList now reqWindow reqs = reqs := by
    simp only [pruneList, List.filter_eq_self]
    intro t ht
    exact decide_eq_true (hin t ht)
  have hlen' : maxReqs <
      ((pruneLocked reqWindow failWindow now ⟨reqs, fails⟩).reqs ++ [now]).length := by
    simp [pruneLocked, hprune, hlen]
  constructor
  · simp only [Allow, if_pos hlen']
  · intro t0 tl hcons hb
    subst hcons
    simp only [Allow, if_pos hlen']
    simp only [pruneLocked, hprune, List.cons_append, List.headD_cons, hb,
      sub_self]
    norm_num

/-- Witness for the amended C9: the concrete boundary scenario — three
requests at 0, 1, 2 with window 10, a fourth call at time 10 — is
rejected with wait 1. -/
theorem allow_boundary_rejects_witness :
    (Allow 10 3 10 5 ⟨[0, 1, 2], []⟩ 10).1 = false ∧
    (Allow 10 3 10 5 ⟨[0, 1, 2], []⟩ 10).2.1 = 1 := by
  have h := allow_boundary_rejects 10 3 10 5 [0, 1, 2] [] 10 rfl (by decide)
  exact ⟨h.1, h.2 0 [1, 2] rfl (by decide)⟩

/-! ## Claim C10 -/

/-- C10: every `Allow` call appends `now` to the address's request list
before checking the limit, and the timestamp stays recorded even when the
call rejects; admission at `now` requires strictly fewer than `maxReqs`
previously recorded timestamps within the window of `now` (so older
attempts must have aged out), and conversely, whenever at least `maxReqs`
recorded timestamps are still within the window the call is rejected. -/
theorem allow_records_and_counts_rejected
    (reqWindow : Int) (maxReqs : Nat) (failWindow : Int) (maxFails : Nat)
    (st : LimState) (now : Int) :
    ((Allow reqWindow maxReqs failWindow maxFails st now).2.2.reqs =
      pruneList now reqWindow st.reqs ++ [now]) ∧
    ((Allow reqWindow maxReqs failWindow maxFails st now).1 = true →
      (pruneList now reqWindow st.reqs).length + 1 ≤ maxReqs) ∧
    (maxReqs ≤ (pruneList now reqWindow st.reqs).length →
      (Allow reqWindow maxReqs failWindow maxFails st now).1 = false) := by
  refine ⟨?_, ?_, ?_⟩
  · simp only [Allow, pruneLocked]
    split <;> [rfl; split <;> rfl]
  · intro hok
    by_contra hgt
    have hlt : maxReqs <
        ((pruneLocked reqWindow failWindow now st).reqs ++ [now]).length := by
      simp only [pruneLocked, List.length_append, List.length_singleton]
      omega
    simp only [Allow, if_pos hlt] at hok
    exact Bool.false_ne_true hok
  · intro hge
    have hlt : maxReqs <
        ((pruneLocked reqWindow failWindow now st).reqs ++ [now]).length := by
      simp only [pruneLocked, List.length_append, List.length_singleton]
      omega
    simp only [Allow, if_pos hlt]

/-- Witness for C10: an allowed first call at time 0 records its
timestamp and has fewer than `maxReqs` prior in-window timestamps, and a
call with `maxReqs` in-window timestamps is rejected yet still recorded. -/
theorem allow_records_and_counts_rejected_witness :
    (Allow 10 3 10 5 ⟨[], []⟩ 0).2.2.reqs = [(0 : Int)] ∧
    (pruneList 0 10 ([] : List Int)).length + 1 ≤ 3 ∧
    (Allow 10 3 10 5 ⟨[0, 1, 2], []⟩ 3).1 = false ∧
    (Allow 10 3 10 5 ⟨[0, 1, 2], []⟩ 3).2.2.reqs = [(0 : Int), 1, 2, 3] := by
  refine ⟨?_, ?_, ?_, ?_⟩
  · simpa using (allow_records_and_counts_rejected 10 3 10 5 ⟨[], []⟩ 0).1
  · exact (allow_records_and_counts_rejected 10 3 10 5 ⟨[], []⟩ 0).2.1 (by decide)
  · exact (allow_records_and_counts_rejected 10 3 10 5 ⟨[0, 1, 2], []⟩ 3).2.2
      (by decide)
  · simpa using (allow_records_and_counts_rejected 10 3 10 5 ⟨[0, 1, 2], []⟩ 3).1

/-! ## PAKE transcript (pkg/crypto/pake.go, `BuildTranscript`)

Peer identifiers are their canonical strings (`peer.ID.String()`); Go's
byte-wise string comparison coincides with Lean's lexicographic `String`
order on these ASCII identifiers (and on UTF-8 in general, since UTF-8
byte order equals code-point order). -/

/-- Go's `BuildTranscript`: swap the two identifiers when the first is
greater, then join the fixed tag, nameplate, subprotocol and the ordered
identifiers with "|" separators. -/
def BuildTranscript (nameplate proto a b : String) : String :=
  let ids := if a > b then (b, a) else (a, b)
  String.intercalate "|" ["wormhole-pake-v1", nameplate, proto, ids.1, ids.2]

/-- The transcript as the specification words it: the five fields joined
with "|", with the two peer identifiers sorted lexicographically. -/
def transcriptSpec (nameplate proto a b : String) : String :=
  String.intercalate "|" ["wormhole-pake-v1", nameplate, proto, min a b, max a b]

/-! ## Claim C7 -/

/-- C7: the transcript builder is symmetric in the two peer identifiers,
and equals "wormhole-pake-v1", the nameplate, the subprotocol tag and the
two identifiers sorted lexicographically, joined with "|". -/
theorem buildTranscript_symmetric (nameplate proto a b : String) :
    BuildTranscript nameplate proto a b = BuildTranscript nameplate proto b a ∧
    BuildTranscript nameplate proto a b = transcriptSpec nameplate proto a b := by
  have hspec : ∀ x y : String,
      BuildTranscript nameplate proto x y = transcriptSpec nameplate proto x y := by
    intro x y
    rcases lt_trichotomy x y with h | h | h
    · have hnot : ¬ x > y := not_lt_of_gt h
      simp [BuildTranscript, transcriptSpec, hnot, min_eq_left h.le,
        max_eq_right h.le]
    · subst h
      simp [BuildTranscript, transcriptSpec]
    · have hgt : x > y := h
      simp [BuildTranscript, transcriptSpec, hgt, min_eq_right h.le,
        max_eq_left h.le]
  refine ⟨?_, hspec a b⟩
  rw [hspec a b, hspec b a, transcriptSpec, transcriptSpec, min_comm, max_comm]

/-! ## Framing codec (cmd/wormhole/main.go `readFrame`,
pkg/transfer/transfer.go `ReadFrame`)

Byte streams are finite lists of byte values.  A successful read returns
the frame type and payload; `none` covers both the "frame too large"
error and a short read. -/

/-- Little-endian interpretation of a byte list (first byte least
significant), as `binary.LittleEndian.Uint64` does for 8 bytes. -/
def leBytes (bs : List Nat) : Nat :=
  bs.foldr (fun b acc => b + 256 * acc) 0

/-- Big-endian interpretation of a byte list, as
`binary.BigEndian.Uint32` does for 4 bytes. -/
def beBytes (bs : List Nat) : Nat :=
  bs.foldl (fun acc b => acc * 256 + b) 0

/-- main.go's `readFrame`: read a 9-byte header (1 type byte, 8-byte
little-endian length `n`), reject with "frame too large" when
`n > 1 <<< 31` before allocating the payload buffer, then read exactly
`n` payload bytes. -/
def readFrame : List Nat → Option (Nat × List Nat)
  | t :: b0 :: b1 :: b2 :: b3 :: b4 :: b5 :: b6 :: b7 :: rest =>
    let n := leBytes [b0, b1, b2, b3, b4, b5, b6, b7]
    if 2 ^ 31 < n then none
    else if rest.length < n then none
    else some (t, rest.take n)
  | _ => none

/-- pkg/transfer's `ReadFrame`: 5-byte header (1 type byte, 4-byte
big-endian length), empty payload returned immediately on length 0,
rejection when the length exceeds 512 MiB, then the payload. -/
def ReadFrameT : List Nat → Option (Nat × List Nat)
  | t :: b0 :: b1 :: b2 :: b3 :: rest =>
    let n := beBytes [b0, b1, b2, b3]
    if n = 0 then some (t, [])
    else if 512 * 1024 * 1024 < n then none
    else if rest.length < n then none
    else some (t, rest.take n)
  | _ => none

/-! ## Claim C8 -/

/-- C8 counterexample: a frame whose declared length is exactly 2^31 is
accepted by main.go's `readFrame`, not rejected — the check is
`n > 1 <<< 31`, so the maximum accepted length is 2^31, not 2^31 − 1.
The header bytes 0,0,0,128,0,0,0,0 encode 2^31 little-endian. -/
theorem readFrame_accepts_two_pow_31 :
    leBytes [0, 0, 0, 128, 0, 0, 0, 0] = 2 ^ 31 ∧
    readFrame (7 :: 0 :: 0 :: 0 :: 128 :: 0 :: 0 :: 0 :: 0 ::
        List.replicate (2 ^ 31) 0) =
      some (7, List.replicate (2 ^ 31) 0) := by
  have hn : leBytes [0, 0, 0, 128, 0, 0, 0, 0] = 2 ^ 31 := by
    norm_num [leBytes]
  refine ⟨hn, ?_⟩
  rw [readFrame]
  rw [hn]
  rw [if_neg (lt_irrefl (2 ^ 31))]
  rw [List.length_replicate, if_neg (lt_irrefl (2 ^ 31))]
  rw [List.take_replicate, min_self]

/-- C8 amended: main.go's `readFrame` rejects a frame as malformed, from
the header alone and before reading or allocating any payload, exactly
when the declared length is strictly greater than 2^31; declared lengths
up to 2^31 inclusive are accepted when the payload is available.
pkg/transfer's `ReadFrame` (4-byte big-endian length) instead rejects
declared lengths greater than 512 MiB. -/
theorem readFrame_length_policy
    (t b0 b1 b2 b3 b4 b5 b6 b7 : Nat) (rest : List Nat) :
    (2 ^ 31 < leBytes [b0, b1, b2, b3, b4, b5, b6, b7] →
      readFrame (t :: b0 :: b1 :: b2 :: b3 :: b4 :: b5 :: b6 :: b7 :: rest) =
        none) ∧
    (leBytes [b0, b1, b2, b3, b4, b5, b6, b7] ≤ 2 ^ 31 →
      leBytes [b0, b1, b2, b3, b4, b5, b6, b7] ≤ rest.length →
      readFrame (t :: b0 :: b1 :: b2 :: b3 :: b4 :: b5 :: b6 :: b7 :: rest) =
        some (t, rest.take (leBytes [b0, b1, b2, b3, b4, b5, b6, b7]))) ∧
    (512 * 1024 * 1024 < beBytes [b0, b1, b2, b3] →
      ReadFrameT (t :: b0 :: b1 :: b2 :: b3 :: rest) = none) := by
  refine ⟨?_, ?_, ?_⟩
  · intro hbig
    rw [readFrame, if_pos hbig]
  · intro hle hlen
    rw [readFrame, if_neg (not_lt.mpr hle), if_neg (not_lt.mpr hlen)]
  · intro hbig
    have hne : beBytes [b0, b1, b2, b3] ≠ 0 := by omega
    rw [ReadFrameT, if_neg hne, if_pos hbig]

/-- Witness for the amended C8: a declared length of 2^31 + 1 is rejected
by `readFrame` from the header alone; a 3-byte frame is read back; and a
declared length of 512 MiB + 1 is rejected by `ReadFrameT`. -/
theorem readFrame_length_policy_witness :
    readFrame [7, 1, 0, 0, 128, 0, 0, 0, 0] = none ∧
    readFrame [7, 3, 0, 0, 0, 0, 0, 0, 0, 10, 11, 12] = some (7, [10, 11, 12]) ∧
    ReadFrameT [7, 32, 0, 0, 1] = none := by
  refine ⟨?_, ?_, ?_⟩
  · exact (readFrame_length_policy 7 1 0 0 128 0 0 0 0 []).1 (by norm_num [leBytes])
  · have h := (readFrame_length_policy 7 3 0 0 0 0 0 0 0 [10, 11, 12]).2.1
      (by norm_num [leBytes]) (by norm_num [leBytes])
    simpa [leBytes] using h
  · exact (readFrame_length_policy 7 32 0 0 1 0 0 0 0 []).2.2 (by norm_num [beBytes])

/-! ## Receiver FileDone handling (cmd/wormhole/main.go,
`handleIncomingXfer`, `case frameFileDone`)

`algo` and the expected hash were lower-cased and trimmed when the
FileHeader arrived; `got` is the lowercase hex of the finalized rolling
hash.  On FileDone the receiver either deletes the destination file and
sends FileNack, or keeps it and sends FileAck. -/

/-- The receiver's action on FileDone. -/
inductive FileDoneAction where
  | ackKept
  | nackRemoved
  deriving DecidableEq, Repr

/-- main.go's FileDone branch:
`if algo != "xxh3-128-seed" || (expectHash != "" && got != expectHash)`
then remove the file and send FileNack, else send FileAck. -/
def fileDoneAction (algo expectHash got : String) : FileDoneAction :=
  if algo ≠ "xxh3-128-seed" ∨ (expectHash ≠ "" ∧ got ≠ expectHash) then
    .nackRemoved
  else
    .ackKept

/-- The FileDone behaviour as claim C5 words it: Nack whenever the algo
differs or the computed hash differs from the expected hash, with no
empty-hash exception. -/
def fileDoneActionClaim (algo expectHash got : String) : FileDoneAction :=
  if algo ≠ "xxh3-128-seed" ∨ got ≠ expectHash then .nackRemoved else .ackKept

/-! ## Claim C5 -/

/-- C5 counterexample: a file whose header carries the empty hash string
and a valid algo is acknowledged with FileAck by the code, although its
computed hash (here the xxh3 digest hex of some content) differs from the
empty expected hash — the claim demands FileNack for such a file. -/
theorem fileDone_empty_hash_acked :
    fileDoneAction "xxh3-128-seed" "" "9e3779b97f4a7c15f39cc0605cedc834" ≠
      fileDoneActionClaim "xxh3-128-seed" "" "9e3779b97f4a7c15f39cc0605cedc834" ∧
    fileDoneAction "xxh3-128-seed" "" "9e3779b97f4a7c15f39cc0605cedc834" = .ackKept ∧
    ("9e3779b97f4a7c15f39cc0605cedc834" : String) ≠ "" := by
  refine ⟨by decide, by decide, by decide⟩

/-- C5 amended: on FileDone the receiver deletes the destination file and
sends FileNack exactly when the header's algo differs from
"xxh3-128-seed" or the expected hash is non-empty and differs from the
computed hash; a header carrying an empty hash string skips the hash
comparison, so with a valid algo such a file is acknowledged with
FileAck. -/
theorem fileDone_action_characterization (algo expectHash got : String) :
    (fileDoneAction algo expectHash got = .nackRemoved ↔
      algo ≠ "xxh3-128-seed" ∨ (expectHash ≠ "" ∧ got ≠ expectHash)) ∧
    (fileDoneAction algo "" got = .ackKept ↔ algo = "xxh3-128-seed") := by
  constructor
  · constructor
    · intro h
      by_contra hcond
      simp only [fileDoneAction, if_neg hcond] at h
      exact FileDoneAction.noConfusion h
    · intro hcond
      simp only [fileDoneAction, if_pos hcond]
  · constructor
    · intro h
      by_contra halgo
      have hcond : algo ≠ "xxh3-128-seed" ∨ (("" : String) ≠ "" ∧ got ≠ "") :=
        Or.inl halgo
      simp only [fileDoneAction, if_pos hcond] at h
      exact FileDoneAction.noConfusion h
    · intro halgo
      have hcond : ¬ (algo ≠ "xxh3-128-seed" ∨ (("" : String) ≠ "" ∧ got ≠ "")) := by
        simp [halgo]
      simp only [fileDoneAction, if_neg hcond]

/-! ## Sender retry loop (cmd/wormhole/main.go, `sendXfer`)

One attempt to send a file either succeeds (the receiver answers FileAck)
or fails (FileNack or a stream error); `outcome k` is the result of the
k-th attempt, numbered from 0 as the source's `attempt` counter.  The
loop retries while the attempt failed and `attempt < maxRetries`,
sleeping `attempt × 300 ms` (after the increment) before each retry.  The
fuel argument is `maxRetries + 1 − attempt`, enough for the loop to reach
its exit condition. -/

/-- Go's `const maxRetries = 3` in sendXfer. -/
def maxRetries : Nat := 3

/-- The backoff before a retry whose (incremented) attempt counter is
`attempt`: attempt × 300 ms. -/
def backoffMs (attempt : Nat) : Nat := attempt * 300

/-- The per-file retry loop of `sendXfer`.  Returns (delivered?, number
of attempts made, list of backoff sleeps in ms, in order). -/
def sendOneLoop (outcome : Nat → Bool) : Nat → Nat → Bool × Nat × List Nat
  | _, 0 => (false, 0, [])
  | attempt, fuel + 1 =>
    if outcome attempt then
      (true, 1, [])
    else if maxRetries ≤ attempt then
      (false, 1, [])
    else
      let rest := sendOneLoop outcome (attempt + 1) fuel
      (rest.1, rest.2.1 + 1, backoffMs (attempt + 1) :: rest.2.2)

/-- Sending one file: the loop starts at attempt 0 with enough fuel. -/
def sendFileResult (outcome : Nat → Bool) : Bool × Nat × List Nat :=
  sendOneLoop outcome 0 (maxRetries + 1)

/-- One file of a directory transfer: its reported name and its per-
attempt outcomes. -/
structure XferFile where
  name : String
  outcome : Nat → Bool

/-- The directory walk of `sendXfer`: every file is sent through the
retry loop, exhausted files are appended to `failedFiles`, the walk
always continues (the WalkDir callback returns nil), and XferDone is
written unconditionally afterwards.  Returns (failed list, XferDone
sent). -/
def sendXferDir (files : List XferFile) : List String × Bool :=
  (files.foldl
    (fun acc f => if (sendFileResult f.outcome).1 then acc else acc ++ [f.name])
    [],
   true)

/-- Helper: the fold of `sendXferDir` is the filter of exhausted files. -/
lemma sendXferDir_foldl (files : List XferFile) (acc : List String) :
    files.foldl
        (fun acc f =>
          if (sendFileResult f.outcome).1 then acc else acc ++ [f.name])
        acc =
      acc ++ (files.filter fun f => !(sendFileResult f.outcome).1).map
        XferFile.name := by
  induction files generalizing acc with
  | nil => simp
  | cons f fs ih =>
    by_cases h : (sendFileResult f.outcome).1
    · simp [List.foldl_cons, h, ih]
    · simp only [List.foldl_cons, if_neg h]
      rw [ih]
      simp [h]

/-! ## Claim C6 -/

/-- C6: when every attempt for a file fails (the receiver keeps answering
FileNack), the sender makes 1 + 3 = 4 attempts with backoffs 300, 600,
900 ms before the three retries, reports the file as undelivered; a
directory transfer records exactly the exhausted files in the final
failed report, continues with the remaining files, and still sends
XferDone. -/
theorem sendXfer_nack_retries :
    (∀ outcome : Nat → Bool, (∀ k, outcome k = false) →
      sendFileResult outcome = (false, 4, [300, 600, 900])) ∧
    (∀ files : List XferFile,
      sendXferDir files =
        ((files.filter fun f => !(sendFileResult f.outcome).1).map XferFile.name,
         true)) := by
  constructor
  · intro outcome h
    simp [sendFileResult, sendOneLoop, h 0, h 1, h 2, h 3, maxRetries, backoffMs]
  · intro files
    unfold sendXferDir
    rw [sendXferDir_foldl]
    simp

/-- Witness for C6: a file that is Nacked on every attempt is tried 4
times with sleeps 300, 600, 900 ms and listed as failed, while a file
acked on the first try is not listed; XferDone is still sent. -/
theorem sendXfer_nack_retries_witness :
    sendFileResult (fun _ => false) = (false, 4, [300, 600, 900]) ∧
    sendXferDir [⟨"bad.bin", fun _ => false⟩, ⟨"good.bin", fun _ => true⟩] =
      (["bad.bin"], true) := by
  constructor
  · exact sendXfer_nack_retries.1 (fun _ => false) (fun _ => rfl)
  · have h := sendXfer_nack_retries.2
      [⟨"bad.bin", fun _ => false⟩, ⟨"good.bin", fun _ => true⟩]
    rw [h]
    rfl

end Wormhole
